import Mathlib

/-!
# Verification of the quality-inspector core

A shallow embedding, in Lean 4, of the conversation-reconstruction,
inspection-response-parsing, report-aggregation and review-workflow
pipeline of `app/assistants/quality_inspector` (files
`conversation_parser.py`, `auto_inspector.py`, `report_generator.py`).

Conventions of the embedding:
* Python strings are modelled as `String` / `List Char` (one element per
  Unicode code point, matching Python's `str` indexing and slicing).
* Python floats are modelled as `ℚ`; every numeric literal compared in this
  development (integers, halves) is exactly representable, so no rounding
  behaviour of IEEE doubles is relied upon.
* Code that can raise is modelled in `Except String`; the catch-all
  recovery blocks of the source become total functions over those values.
* `datetime.now()` timestamps are passed in as explicit parameters.
* The standard-library collaborators (`json`, `re`, `hashlib`) are
  modelled semantically: the regex patterns of the source are compiled by
  hand into deterministic scanners that follow Python's leftmost-match,
  lazy/greedy and backtracking behaviour for exactly the patterns the
  source uses; `json.loads` is an explicit recursive-descent parser.
-/

/-- Python `str.isspace` / regex `\s` for the characters relevant here
(ASCII whitespace plus the common Unicode spaces). -/
def isPySpace (c : Char) : Bool :=
  c = ' ' || c = '\t' || c = '\n' || c = '\r' || c = '\x0b' || c = '\x0c' ||
  c = ' ' || c = '　'

/-- Python `str.strip()` on a code-point list. -/
def pyStrip (l : List Char) : List Char :=
  ((l.dropWhile isPySpace).reverse.dropWhile isPySpace).reverse

/-- Python `str.strip()` on a `String`. -/
def pyStripS (s : String) : String :=
  String.mk (pyStrip s.data)

/-- ASCII decimal digit (regex `\d` restricted to ASCII; the source never
feeds non-ASCII digits to these patterns). -/
def isAsciiDigit (c : Char) : Bool :=
  '0' ≤ c && c ≤ '9'

/-- Substring containment, Python's `sub in s` for non-empty `sub`. -/
def hasSub (s sub : List Char) : Bool :=
  (List.range (s.length + 1)).any (fun i => sub.isPrefixOf (s.drop i))

/-- Python `str.lower()` (ASCII letters only; the source lowercases a
response before searching for Chinese substrings, which lowering does not
affect). -/
def pyLower (l : List Char) : List Char :=
  l.map (fun c => if 'A' ≤ c && c ≤ 'Z' then Char.ofNat (c.toNat + 32) else c)

/-- Leftmost-match search: try `f` at indices `i, i+1, ...` (at most
`fuel + 1` positions) and return the first hit.  This is the semantics of
`re.search` for the deterministic single-position matchers used below. -/
def firstHitFrom (f : Nat → Option α) (i : Nat) : Nat → Option α
  | 0 => f i
  | fuel + 1 =>
    match f i with
    | some v => some v
    | none => firstHitFrom f (i + 1) fuel

/-! ## A model of `json.loads`

The Python standard-library JSON decoder, modelled as a recursive-descent
parser into an explicit value type.  Decoding failures (`JSONDecodeError`)
are `none`.  Numbers are decoded exactly into `ℚ`. -/

inductive Json where
  | null : Json
  | bool : Bool → Json
  | num : ℚ → Json
  | str : String → Json
  | arr : List Json → Json
  | obj : List (String × Json) → Json
deriving Inhabited

/-- JSON structural whitespace (the four characters the decoder skips). -/
def isJsonWs (c : Char) : Bool :=
  c = ' ' || c = '\t' || c = '\n' || c = '\r'

def skipWs (l : List Char) : List Char :=
  l.dropWhile isJsonWs

/-- Hexadecimal digit test for `\uXXXX` escapes. -/
def isHexChar (c : Char) : Bool :=
  isAsciiDigit c || ('a' ≤ c && c ≤ 'f') || ('A' ≤ c && c ≤ 'F')

/-- Decode the body of a JSON string literal (after the opening quote),
returning the decoded code points and the remainder after the closing
quote. -/
def parseStrBody : List Char → Option (List Char × List Char)
  | [] => none
  | '"' :: rest => some ([], rest)
  | '\\' :: 'u' :: a :: b :: c :: d :: rest =>
    if isHexChar a && isHexChar b && isHexChar c && isHexChar d then
      match parseStrBody rest with
      | some (cs, r) =>
        let n := [a, b, c, d].foldl (fun acc h =>
          acc * 16 + (if h.isDigit then h.toNat - '0'.toNat
            else if 'a' ≤ h && h ≤ 'f' then h.toNat - 'a'.toNat + 10
            else h.toNat - 'A'.toNat + 10)) 0
        some (Char.ofNat n :: cs, r)
      | none => none
    else none
  | '\\' :: e :: rest =>
    let dec : Option Char :=
      if e = '"' then some '"'
      else if e = '\\' then some '\\'
      else if e = '/' then some '/'
      else if e = 'n' then some '\n'
      else if e = 't' then some '\t'
      else if e = 'r' then some '\r'
      else if e = 'b' then some '\x08'
      else if e = 'f' then some '\x0c'
      else none
    match dec with
    | some ch =>
      match parseStrBody rest with
      | some (cs, r) => some (ch :: cs, r)
      | none => none
    | none => none
  | c :: rest =>
    match parseStrBody rest with
    | some (cs, r) => some (c :: cs, r)
    | none => none

/-- Value of a (non-empty) list of decimal digits. -/
def digitsVal (ds : List Char) : Nat :=
  ds.foldl (fun a c => a * 10 + (c.toNat - '0'.toNat)) 0

/-- Decode a JSON number at the head of the input (sign, integer part,
optional fraction, optional exponent), exactly, into `ℚ`. -/
def parseNum (l : List Char) : Option (ℚ × List Char) :=
  let (sgn, l1) : ℚ × List Char :=
    match l with
    | '-' :: rest => (-1, rest)
    | _ => (1, l)
  let ds := l1.takeWhile isAsciiDigit
  if ds.isEmpty then none
  else
    let l2 := l1.drop ds.length
    let (frac, l3) : ℚ × List Char :=
      match l2 with
      | '.' :: rest =>
        let fs := rest.takeWhile isAsciiDigit
        if fs.isEmpty then ((0 : ℚ), l2)
        else ((digitsVal fs : ℚ) / ((10 : ℚ) ^ fs.length), rest.drop fs.length)
      | _ => ((0 : ℚ), l2)
    let (expo, l4) : Option Int × List Char :=
      match l3 with
      | 'e' :: rest | 'E' :: rest =>
        let (esgn, r1) : Int × List Char :=
          match rest with
          | '-' :: r => (-1, r)
          | '+' :: r => (1, r)
          | _ => (1, rest)
        let es := r1.takeWhile isAsciiDigit
        if es.isEmpty then (none, l3)
        else (some (esgn * (digitsVal es : Int)), r1.drop es.length)
      | _ => (some 0, l3)
    match expo with
    | none => some (sgn * ((digitsVal ds : ℚ) + frac), l3)
    | some e => some (sgn * ((digitsVal ds : ℚ) + frac) * (10 : ℚ) ^ e, l4)

/-- Parse one JSON array's elements given a value parser (called after the
opening bracket). -/
def parseElemsWith (pv : List Char → Option (Json × List Char)) :
    Nat → List Char → Option (List Json × List Char)
  | 0, _ => none
  | fuel + 1, cs =>
    match pv cs with
    | none => none
    | some (v, r) =>
      match skipWs r with
      | ',' :: r2 =>
        match parseElemsWith pv fuel r2 with
        | some (vs, r3) => some (v :: vs, r3)
        | none => none
      | ']' :: r2 => some ([v], r2)
      | _ => none

/-- Parse one JSON object's members given a value parser (called after the
opening brace). -/
def parseMembersWith (pv : List Char → Option (Json × List Char)) :
    Nat → List Char → Option (List (String × Json) × List Char)
  | 0, _ => none
  | fuel + 1, cs =>
    match skipWs cs with
    | '"' :: r =>
      match parseStrBody r with
      | none => none
      | some (k, r1) =>
        match skipWs r1 with
        | ':' :: r2 =>
          match pv r2 with
          | none => none
          | some (v, r3) =>
            match skipWs r3 with
            | ',' :: r4 =>
              match parseMembersWith pv fuel r4 with
              | some (ms, r5) => some ((String.mk k, v) :: ms, r5)
              | none => none
            | '\x7d' :: r4 => some ([(String.mk k, v)], r4)
            | _ => none
        | _ => none
    | _ => none

/-- Parse one JSON value (fuelled; the fuel bounds nesting depth, standing
in for the decoder's recursion limit). -/
def parseVal : Nat → List Char → Option (Json × List Char)
  | 0, _ => none
  | fuel + 1, cs =>
    match skipWs cs with
    | [] => none
    | c :: rest =>
      if c = 'n' then
        if "ull".data.isPrefixOf rest then some (Json.null, rest.drop 3) else none
      else if c = 't' then
        if "rue".data.isPrefixOf rest then some (Json.bool true, rest.drop 3) else none
      else if c = 'f' then
        if "alse".data.isPrefixOf rest then some (Json.bool false, rest.drop 4) else none
      else if c = '"' then
        match parseStrBody rest with
        | some (s, r) => some (Json.str (String.mk s), r)
        | none => none
      else if c = '[' then
        match skipWs rest with
        | ']' :: r => some (Json.arr [], r)
        | _ =>
          match parseElemsWith (parseVal fuel) (rest.length + 1) rest with
          | some (vs, r) => some (Json.arr vs, r)
          | none => none
      else if c = '\x7b' then
        match skipWs rest with
        | '\x7d' :: r => some (Json.obj [], r)
        | _ =>
          match parseMembersWith (parseVal fuel) (rest.length + 1) rest with
          | some (ms, r) => some (Json.obj ms, r)
          | none => none
      else if c = '-' || isAsciiDigit c then
        match parseNum (c :: rest) with
        | some (q, r) => some (Json.num q, r)
        | none => none
      else none

/-- `json.loads` on a code-point list: a decoded value, or `none` for a
`JSONDecodeError`. -/
def jsonLoadsL (l : List Char) : Option Json :=
  match parseVal (l.length + 1) l with
  | some (v, rest) => if skipWs rest = [] then some v else none
  | none => none

/-- `json.loads` on a `String`. -/
def jsonLoads (s : String) : Option Json :=
  jsonLoadsL s.data

/-- `dict.get` over the association list of a decoded JSON object (first
binding wins, as in a Python dict produced by the decoder, which keeps the
last duplicate — duplicate keys do not occur in this development). -/
def lookupJ (k : String) (fs : List (String × Json)) : Option Json :=
  List.lookup k fs

/-- Python truthiness of a decoded JSON value (`None`, `False`, `0`, `""`,
`[]`, `{}` are falsy). -/
def jsonFalsy : Json → Bool
  | Json.null => true
  | Json.bool b => !b
  | Json.num q => q = 0
  | Json.str s => s.data.isEmpty
  | Json.arr l => l.isEmpty
  | Json.obj l => l.isEmpty

mutual

/-- Structural equality of decoded JSON values (Python `==` on the decoded
objects; dict comparison here is order-sensitive, which is immaterial in
this development since it is only used to deduplicate speaker labels). -/
def jsonBeq : Json → Json → Bool
  | Json.null, Json.null => true
  | Json.bool a, Json.bool b => a == b
  | Json.num a, Json.num b => a == b
  | Json.str a, Json.str b => a == b
  | Json.arr a, Json.arr b => jsonListBeq a b
  | Json.obj a, Json.obj b => jsonObjBeq a b
  | _, _ => false

def jsonListBeq : List Json → List Json → Bool
  | [], [] => true
  | a :: as, b :: bs => jsonBeq a b && jsonListBeq as bs
  | _, _ => false

def jsonObjBeq : List (String × Json) → List (String × Json) → Bool
  | [], [] => true
  | (k, a) :: as, (l, b) :: bs => k == l && jsonBeq a b && jsonObjBeq as bs
  | _, _ => false

end

/-- `list(set(xs))`: deduplication of speaker labels.  A CPython set
iterates in an unspecified order; the embedding fixes first-occurrence
order, which is immaterial to the properties proved here (they treat
participants as a set). -/
def dedupFirstJ (l : List Json) : List Json :=
  l.foldl (fun acc x => if acc.any (jsonBeq x) then acc else acc ++ [x]) []

/-! ## `conversation_parser.py` — data model

`DialogueTurn` and `ParsedConversation`.  Python fields are dynamically
typed: a turn parsed from JSON stores whatever value the `speaker` /
`content` keys held, so both fields are modelled as decoded JSON values
(text parsing wraps plain strings in `Json.str`).  The `timestamp`,
`emotion` and `intent` fields (wall-clock metadata, always defaulted by
the code paths under verification) are not modelled. -/

structure DialogueTurn where
  speaker : Json
  content : Json

structure ParsedConversation where
  session_id : Json
  participants : List Json
  turns : List DialogueTurn
  metadata : List (String × String)

/-! ## `conversation_parser.py` — `extract_dialogue_turns`

The source tries three regex patterns in order with `re.findall(...,
re.DOTALL)` and keeps the first pattern that produces any match (the
`break` fires even when every match is filtered out for having empty
content); if no turn was produced it falls back to a line scanner.

Pattern 1 is `(客户|用户|Customer|User)[：:]\s*(.+?)(?=(客户|用户|Customer|User)[：:]|$)`.
Its last capture group lives inside the lookahead, so `match[-1]` — which
the source uses as the turn content — is the *next* speaker label, or the
empty string when the lookahead matched at end of input. -/

/-- The recognized speaker labels of pattern 1, in alternation order. -/
def p1Labels : List (List Char) :=
  ["客户".data, "用户".data, "Customer".data, "User".data]

/-- The colon separators `[：:]`. -/
def isSepColon (c : Char) : Bool :=
  c = '：' || c = ':'

/-- Match `(客户|用户|Customer|User)[：:]` at the head of the input,
returning the captured label and the remainder. -/
def labelSepAt (cs : List Char) : Option (String × List Char) :=
  p1Labels.findSome? (fun lbl =>
    if lbl.isPrefixOf cs then
      match cs.drop lbl.length with
      | c :: rest => if isSepColon c then some (String.mk lbl, rest) else none
      | [] => none
    else none)

/-- `$` without `re.MULTILINE`: end of input, or just before a final
newline. -/
def dollarOk (rest : List Char) : Bool :=
  rest = [] || rest = ['\n']

/-- The lookahead `(?=(客户|用户|Customer|User)[：:]|$)`: `some (some l)`
when the label branch matches capturing `l`, `some none` when only `$`
matches, `none` when the lookahead fails. -/
def lookahead1 (rest : List Char) : Option (Option String) :=
  match labelSepAt rest with
  | some (lbl, _) => some (some lbl)
  | none => if dollarOk rest then some none else none

/-- Lazy expansion of `(.+?)` until `lookahead1` holds: consume at least
one character, stopping at the first position where the lookahead
matches.  Returns the consumed content, the lookahead's capture, and the
remainder (the lookahead consumes nothing). -/
def swallow1 (acc : List Char) : List Char → Option (List Char × Option String × List Char)
  | [] => none
  | c :: rest =>
    match lookahead1 rest with
    | some g3 => some ((c :: acc).reverse, g3, rest)
    | none => swallow1 (c :: acc) rest

/-- One attempted match of pattern 1 at the head of the input, following
the engine's backtracking: greedy `\s*`, then lazy `(.+?)`; when every
remaining character is whitespace the engine gives one character back to
`(.+?)` and the `$` branch of the lookahead closes the match. -/
def match1At (cs : List Char) : Option (String × String × String × List Char) :=
  match labelSepAt cs with
  | none => none
  | some (lbl, rest1) =>
    let w := rest1.takeWhile isPySpace
    let rest2 := rest1.drop w.length
    match swallow1 [] rest2 with
    | some (g2, g3, rem) => some (lbl, String.mk g2, (g3.getD ""), rem)
    | none =>
      match w.reverse with
      | [] => none
      | lastWs :: _ => some (lbl, String.mk [lastWs], "", [])

/-- `re.findall` for pattern 1: scan left to right, restarting after each
match. -/
def scan1 : Nat → List Char → List (String × String × String)
  | 0, _ => []
  | _, [] => []
  | fuel + 1, cs =>
    match match1At cs with
    | some (g1, g2, g3, rem) => (g1, g2, g3) :: scan1 fuel rem
    | none => scan1 fuel cs.tail

/-! Pattern 2 is `\[(.*?)\]\s*(.+?)(?=\[|$)`. -/

/-- The lookahead `(?=\[|$)`. -/
def lookahead2 (rest : List Char) : Bool :=
  match rest with
  | '[' :: _ => true
  | _ => dollarOk rest

/-- Lazy expansion of `(.+?)` until `lookahead2` holds. -/
def swallow2 (acc : List Char) : List Char → Option (List Char × List Char)
  | [] => none
  | c :: rest =>
    if lookahead2 rest then some ((c :: acc).reverse, rest)
    else swallow2 (c :: acc) rest

/-- One attempted match of pattern 2 at the head of the input. -/
def match2At (cs : List Char) : Option (String × String × List Char) :=
  match cs with
  | '[' :: rest =>
    if rest.any (· = ']') then
      let g1 := rest.takeWhile (· ≠ ']')
      let rest1 := rest.drop (g1.length + 1)
      let w := rest1.takeWhile isPySpace
      let rest2 := rest1.drop w.length
      match swallow2 [] rest2 with
      | some (g2, rem) => some (String.mk g1, String.mk g2, rem)
      | none =>
        match w.reverse with
        | [] => none
        | lastWs :: _ => some (String.mk g1, String.mk [lastWs], [])
    else none
  | _ => none

/-- `re.findall` for pattern 2. -/
def scan2 : Nat → List Char → List (String × String)
  | 0, _ => []
  | _, [] => []
  | fuel + 1, cs =>
    match match2At cs with
    | some (g1, g2, rem) => (g1, g2) :: scan2 fuel rem
    | none => scan2 fuel cs.tail

/-! Pattern 3 is `(\w+)[（(](.+?)[）)]\s*(.+)`. -/

/-- Regex `\w` (approximated: ASCII alphanumerics, underscore, and CJK
unified ideographs; the pattern only runs when patterns 1 and 2 found no
match, and no claim exercises it). -/
def isWordChar (c : Char) : Bool :=
  c.isAlphanum || c = '_' || (0x4E00 ≤ c.toNat && c.toNat ≤ 0x9FFF)

def isCloseParen (c : Char) : Bool :=
  c = '）' || c = ')'

/-- Lazy `(.+?)` up to a closing parenthesis, backtracking past closers
that leave nothing for the mandatory `\s*(.+)` tail: the first closer at
index ≥ 1 with at least one character after it. -/
def split3 (acc : List Char) : List Char → Option (List Char × List Char)
  | [] => none
  | c :: rest =>
    if acc ≠ [] && isCloseParen c && rest ≠ [] then some (acc.reverse, rest)
    else split3 (c :: acc) rest

/-- One attempted match of pattern 3 at the head of the input; greedy
`(.+)` with `re.DOTALL` consumes to end of input. -/
def match3At (cs : List Char) : Option (String × String × String) :=
  let g1 := cs.takeWhile isWordChar
  if g1.isEmpty then none
  else
    match cs.drop g1.length with
    | c :: rest =>
      if c = '（' || c = '(' then
        match split3 [] rest with
        | some (g2, after) =>
          let w := after.takeWhile isPySpace
          let rest2 := after.drop w.length
          if rest2 ≠ [] then some (String.mk g1, String.mk g2, String.mk rest2)
          else
            match after.reverse with
            | lastWs :: _ => some (String.mk g1, String.mk g2, String.mk [lastWs])
            | [] => none
        | none => none
      else none
    | [] => none

/-- `re.findall` for pattern 3 (a successful match consumes the rest of
the input, so at most one match is found). -/
def scan3 : Nat → List Char → List (String × String × String)
  | 0, _ => []
  | _, [] => []
  | fuel + 1, cs =>
    match match3At cs with
    | some m => [m]
    | none => scan3 fuel cs.tail

/-- The fallback line scanner: a stripped line containing an ASCII colon
starts a new turn (speaker before the colon, content after); other
non-empty lines are appended to the open turn's content, space-joined.
The initial speaker is the literal `未知`. -/
def fallbackStep (st : String × List String × List DialogueTurn) (line : String) :
    String × List String × List DialogueTurn :=
  let (speaker, contentAcc, turns) := st
  let l := pyStrip line.data
  if l = [] then st
  else if l.any (· = ':') then
    let turns' :=
      if contentAcc ≠ [] then
        turns ++ [⟨Json.str speaker, Json.str (String.intercalate " " contentAcc)⟩]
      else turns
    let pre := l.takeWhile (· ≠ ':')
    let post := l.drop (pre.length + 1)
    (String.mk (pyStrip pre), [String.mk (pyStrip post)], turns')
  else
    (speaker, contentAcc ++ [String.mk l], turns)

def fallbackScan (conversation : String) : List DialogueTurn :=
  let (speaker, contentAcc, turns) :=
    (conversation.splitOn "\n").foldl fallbackStep ("未知", [], [])
  if contentAcc ≠ [] then
    turns ++ [⟨Json.str speaker, Json.str (String.intercalate " " contentAcc)⟩]
  else turns

/-- `ConversationParser.extract_dialogue_turns`.  For every pattern the
source takes `match[0]` as the speaker and `match[-1]` as the content —
for pattern 1, `match[-1]` is the lookahead's capture group. -/
def extract_dialogue_turns (conversation : String) : List DialogueTurn :=
  let cs := conversation.data
  let m1 := scan1 (cs.length + 1) cs
  let fromPatterns : List DialogueTurn :=
    if m1 ≠ [] then
      m1.filterMap (fun m =>
        let speaker := pyStripS m.1
        let content := pyStripS m.2.2
        if content ≠ "" then some ⟨Json.str speaker, Json.str content⟩ else none)
    else
      let m2 := scan2 (cs.length + 1) cs
      if m2 ≠ [] then
        m2.filterMap (fun m =>
          let speaker := pyStripS m.1
          let content := pyStripS m.2
          if content ≠ "" then some ⟨Json.str speaker, Json.str content⟩ else none)
      else
        let m3 := scan3 (cs.length + 1) cs
        m3.filterMap (fun m =>
          let speaker := pyStripS m.1
          let content := pyStripS m.2.2
          if content ≠ "" then some ⟨Json.str speaker, Json.str content⟩ else none)
  if fromPatterns.isEmpty then fallbackScan conversation else fromPatterns

/-- `content.startswith('\x7b') or content.startswith('[')`. -/
def startsJsonLike (cs : List Char) : Bool :=
  match cs with
  | c :: _ => c = '\x7b' || c = '['
  | [] => false

/-- `ConversationParser.detect_format`. -/
def detect_format (content : String) : String :=
  let cs := pyStrip content.data
  if startsJsonLike cs && (jsonLoadsL cs).isSome then "json"
  else if cs.any (· = ':') || cs.any (· = '：') then "text"
  else "unknown"

/-! ## `conversation_parser.py` — parsing entry points -/

/-- Hexadecimal digit characters. -/
def hexDigitChar (n : Nat) : Char :=
  if n < 10 then Char.ofNat ('0'.toNat + n) else Char.ofNat ('a'.toNat + (n - 10))

/-- Stand-in for `hashlib.md5(raw_content.encode()).hexdigest()[:12]`:
a deterministic 12-hexadecimal-character digest of the content.  Only
determinism and the 12-hex-character shape of the digest are relied on
(in particular such a digest is never the 11-character sentinel
`"parse_error"`). -/
def md5hex12 (s : String) : String :=
  let h := s.data.foldl (fun a c => (a * 131 + c.toNat) % (2 ^ 48)) 5381
  String.mk ((List.range 12).map (fun i => hexDigitChar ((h / 16 ^ (11 - i)) % 16)))

/-- `ConversationParser._parse_text`: always succeeds. -/
def parse_text (raw_content : String) : ParsedConversation :=
  let turns := extract_dialogue_turns raw_content
  { session_id := Json.str (md5hex12 raw_content)
    participants := dedupFirstJ (turns.map (·.speaker))
    turns := turns
    metadata := [("format", "text")] }

/-- `turn.get("speaker", "未知")` / `turn.get("content", "")` on one
element of the turns array; a non-dict element raises `AttributeError`
(no `.get` attribute), which propagates to `parse_conversation`. -/
def elemToTurn (j : Json) : Except String DialogueTurn :=
  match j with
  | Json.obj fs =>
    Except.ok ⟨(lookupJ "speaker" fs).getD (Json.str "未知"),
               (lookupJ "content" fs).getD (Json.str "")⟩
  | _ => Except.error "AttributeError: object has no attribute get"

/-- Iterating `for turn in data.get("turns", data.get("conversation", []))`:
a list yields its elements, a string its characters, a dict its keys;
other values raise `TypeError`. -/
def pyIter (v : Json) : Except String (List Json) :=
  match v with
  | Json.arr xs => Except.ok xs
  | Json.str s => Except.ok (s.data.map (fun c => Json.str (String.mk [c])))
  | Json.obj fs => Except.ok (fs.map (fun kv => Json.str kv.1))
  | _ => Except.error "TypeError: object is not iterable"

/-- `ConversationParser._parse_json`.  `JSONDecodeError` is caught inside
the method and already produces the `parse_error` sentinel; any other
exception propagates (`Except.error`).  In the top-level-array branch the
source builds the turns and then evaluates `session_id or "json_session"`
— but on that branch the local `session_id` was never assigned, so Python
raises `UnboundLocalError`, which escapes to `parse_conversation`. -/
def parse_json (raw_content : String) : Except String ParsedConversation :=
  match jsonLoads raw_content with
  | none =>
    Except.ok { session_id := Json.str "parse_error", participants := [], turns := [],
                metadata := [("error", "JSON解析错误")] }
  | some (Json.arr items) =>
    match items.mapM elemToTurn with
    | Except.error e => Except.error e
    | Except.ok _ =>
      Except.error "UnboundLocalError: cannot access local variable session_id where it is not associated with a value"
  | some (Json.obj fields) =>
    let turnsVal := (lookupJ "turns" fields).getD ((lookupJ "conversation" fields).getD (Json.arr []))
    match pyIter turnsVal with
    | Except.error e => Except.error e
    | Except.ok items =>
      match items.mapM elemToTurn with
      | Except.error e => Except.error e
      | Except.ok turns =>
        let sid := (lookupJ "session_id" fields).getD (Json.str "json_session")
        let sid := if jsonFalsy sid then Json.str "json_session" else sid
        Except.ok { session_id := sid
                    participants := dedupFirstJ (turns.map (·.speaker))
                    turns := turns
                    metadata := [("format", "json")] }
  | some _ =>
    Except.ok { session_id := Json.str "parse_error", participants := [], turns := [],
                metadata := [("error", "无效的JSON格式")] }

/-- The body of `ConversationParser.parse_conversation` before its
catch-all handler: dispatch on the format hint (`"json"` selects the JSON
parser, anything else the text parser). -/
def parseResult (raw_content : String) (format_type : String) :
    Except String ParsedConversation :=
  if format_type = "json" then parse_json raw_content
  else Except.ok (parse_text raw_content)

/-- `ConversationParser.parse_conversation`: total — every exception is
converted into the `parse_error` sentinel carrying the cause in
`metadata["error"]`. -/
def parse_conversation (raw_content : String) (format_type : String) :
    ParsedConversation :=
  match parseResult raw_content format_type with
  | Except.ok c => c
  | Except.error e =>
    { session_id := Json.str "parse_error", participants := [], turns := [],
      metadata := [("error", e)] }

/-! ## `auto_inspector.py` — data model and response parsing -/

/-- `config.constants.IssueSeverity`. -/
def IssueSeverity_LOW : String := "低"
def IssueSeverity_MEDIUM : String := "中"
def IssueSeverity_HIGH : String := "高"
def IssueSeverity_CRITICAL : String := "严重"

/-- `QualityIssue` (its `detected_at` wall-clock field is not modelled). -/
structure QualityIssue where
  issue_type : String
  description : String
  severity : String
  location : Option String := none
  suggestion : Option String := none
  evidence : Option String := none
deriving DecidableEq

/-- `InspectionReport` (its `generated_at` wall-clock field is not
modelled). -/
structure InspectionReport where
  session_id : String
  overall_score : ℚ := 0
  attitude_score : ℚ := 0
  professionalism_score : ℚ := 0
  compliance_score : ℚ := 0
  issues : List QualityIssue := []
  summary : String := ""
deriving DecidableEq

/-- The character class `[：:\s]` of the score and summary patterns. -/
def isScoreSep (c : Char) : Bool :=
  isSepColon c || isPySpace c

/-- The capture `(\d+\.?\d*)` at the head of the input: a maximal digit
run, an optional dot, a maximal digit run; its value under Python
`float`. -/
def parseScoreNum (l : List Char) : Option ℚ :=
  let ds := l.takeWhile isAsciiDigit
  if ds.isEmpty then none
  else
    match l.drop ds.length with
    | '.' :: rest =>
      let fs := rest.takeWhile isAsciiDigit
      some ((digitsVal ds : ℚ) + (digitsVal fs : ℚ) / ((10 : ℚ) ^ fs.length))
    | _ => some ((digitsVal ds : ℚ))

/-- Attempted match of `<label>[：:\s]*(\d+\.?\d*)` at position `i`:
the label, then a greedy separator run, then the captured number (the
separator class contains no digits, so no backtracking can occur). -/
def labelNumAt (lbl : List Char) (s : List Char) (i : Nat) : Option ℚ :=
  let t := s.drop i
  if lbl.isPrefixOf t then
    parseScoreNum ((t.drop lbl.length).dropWhile isScoreSep)
  else none

/-- `re.search(r'<label>[：:\s]*(\d+\.?\d*)', response)` followed by
`float(...)`: the leftmost position where the pattern matches. -/
def searchScore (lbl : List Char) (s : List Char) : Option ℚ :=
  firstHitFrom (labelNumAt lbl s) 0 s.length

/-- A match of the splitting pattern `\d+\.` at the head of the input:
a maximal digit run followed by a dot; returns the remainder. -/
def numDotAt (s : List Char) : Option (List Char) :=
  let ds := s.takeWhile isAsciiDigit
  if ds.isEmpty then none
  else
    match s.drop ds.length with
    | '.' :: rest => some rest
    | _ => none

/-- `re.split(r'\d+\.', response)`: the pieces of the input between
(non-overlapping, leftmost-first) matches of `\d+\.`. -/
def splitNumDot (acc : List Char) : Nat → List Char → List (List Char)
  | _, [] => [acc.reverse]
  | 0, cs => [acc.reverse ++ cs]
  | fuel + 1, cs =>
    match numDotAt cs with
    | some rem => acc.reverse :: splitNumDot [] fuel rem
    | none =>
      match cs with
      | [] => [acc.reverse]
      | c :: rest => splitNumDot (c :: acc) fuel rest

/-- One block of the issue loop: blocks containing `问题` or `不足` yield
an issue whose description is the stripped block truncated to 200 code
points, severity `高` if the block contains `严重`, else `低` if it
contains `轻微`, else `中`. -/
def blockToIssue (b : List Char) : Option QualityIssue :=
  if hasSub b "问题".data || hasSub b "不足".data then
    some { issue_type := "服务问题"
           description := String.mk ((pyStrip b).take 200)
           severity :=
             if hasSub b "严重".data then IssueSeverity_HIGH
             else if hasSub b "轻微".data then IssueSeverity_LOW
             else IssueSeverity_MEDIUM }
  else none

/-- Attempted match of `总结[：:\s]*(.+?)$` (with `re.MULTILINE`, without
`re.DOTALL`) at position `i`.  After the greedy separator run the lazy
`(.+?)` needs one non-newline character and stops at the first `$`
position (before a newline or at end of input); when the input ends
inside the separator run the engine backtracks and the capture is the
run's last non-newline character, if any. -/
def summaryAt (s : List Char) (i : Nat) : Option (List Char) :=
  let t := s.drop i
  if "总结".data.isPrefixOf t then
    let u := t.drop ("总结".data).length
    let run := u.takeWhile isScoreSep
    match u.drop run.length with
    | c :: rest => some (c :: rest.takeWhile (· ≠ '\n'))
    | [] =>
      match run.reverse.dropWhile (· = '\n') with
      | c :: _ => some [c]
      | [] => none
  else none

/-- `re.search(r'总结[：:\s]*(.+?)$', response, re.MULTILINE)` and
`.group(1).strip()`. -/
def searchSummary (s : List Char) : Option String :=
  (firstHitFrom (summaryAt s) 0 s.length).map (fun cs => String.mk (pyStrip cs))

/-- `AutoInspector._parse_inspection_response`. -/
def parse_inspection_response (response : String) (session_id : String) :
    InspectionReport :=
  let cs := response.data
  { session_id := session_id
    overall_score := (searchScore "总体评分".data cs).getD 0
    attitude_score := (searchScore "服务态度".data cs).getD 0
    professionalism_score := (searchScore "专业性".data cs).getD 0
    compliance_score := (searchScore "合规性".data cs).getD 0
    issues := ((splitNumDot [] (cs.length + 1) cs).drop 1).filterMap blockToIssue
    summary := (searchSummary cs).getD "" }

/-- `re.search(r'\{[\s\S]*\}', response)`: from the first opening brace to
the last closing brace, when a closing brace follows an opening one. -/
def extractBraces (s : List Char) : Option (List Char) :=
  let i := s.findIdx (· = '\x7b')
  let jr := s.reverse.findIdx (· = '\x7d')
  if i < s.length && jr < s.length then
    let j := s.length - 1 - jr
    if i < j then some ((s.drop i).take (j - i + 1)) else none
  else none

/-- `AutoInspector._parse_json_response`: decode the brace-delimited
portion of the response; `{}` when there is no match or decoding fails. -/
def parse_json_response (response : String) : List (String × Json) :=
  match extractBraces response.data with
  | some sub =>
    match jsonLoadsL sub with
    | some (Json.obj fs) => fs
    | _ => []
  | none => []

/-- The value returned by `AutoInspector.check_compliance` (a Python
dict; on the exception path it carries only `score` and `error`, so
`issues`/`details` are empty there). -/
structure ComplianceResult where
  score : Json
  issues : List String
  details : List (String × Json)
  error : Option String

/-- `AutoInspector.check_compliance`.  The external
`llm_client.generate_text` call is the operation that can raise, so the
collaborator's outcome is the explicit argument: an exception is answered
by `{"score": 0, "error": str(e)}`; otherwise the response is parsed and
`score` defaults to `100` when the extracted JSON carries no `score`
key. -/
def check_compliance (llmOutcome : Except String String) : ComplianceResult :=
  match llmOutcome with
  | Except.error e => { score := Json.num 0, issues := [], details := [], error := some e }
  | Except.ok response =>
    let result := parse_json_response response
    let lower := pyLower response.data
    let compliance_issues :=
      if hasSub lower "违规".data || hasSub lower "不合规".data then
        ["存在潜在的合规性问题"]
      else []
    { score := (lookupJ "score" result).getD (Json.num 100)
      issues := compliance_issues
      details := result
      error := none }

/-! ## `report_generator.py` — summary aggregation -/

/-- `SummaryReport` (its `generated_at` wall-clock field is not
modelled).  The zero-argument constructor `SummaryReport()` is
`emptySummaryReport`. -/
structure SummaryReport where
  report_period : Option String := none
  total_sessions : Nat := 0
  avg_score : ℚ := 0
  score_distribution : List (String × Nat) := []
  top_issues : List (String × Nat) := []
  recommendations : List String := []
deriving DecidableEq

def emptySummaryReport : SummaryReport := {}

/-- The distribution loop of `generate_summary_report`: each report is
classified by the `if/elif` chain on its overall score. -/
def distStep (acc : Nat × Nat × Nat × Nat) (r : InspectionReport) :
    Nat × Nat × Nat × Nat :=
  let (b1, b2, b3, b4) := acc
  if 90 ≤ r.overall_score then (b1 + 1, b2, b3, b4)
  else if 80 ≤ r.overall_score then (b1, b2 + 1, b3, b4)
  else if 60 ≤ r.overall_score then (b1, b2, b3 + 1, b4)
  else (b1, b2, b3, b4 + 1)

def scoreDistribution (results : List InspectionReport) : List (String × Nat) :=
  let (b1, b2, b3, b4) := results.foldl distStep (0, 0, 0, 0)
  [("优秀(90-100)", b1), ("良好(80-89)", b2), ("合格(60-79)", b3), ("不合格(<60)", b4)]

/-- The issue-statistics loop: a Python dict mapping each encountered
`issue_type` to its count (unique keys; a fresh key is appended, an
existing key's value is incremented in place — insertion order is
first-encounter order, as in a Python dict). -/
def addCount : List (String × Nat) → String → List (String × Nat)
  | [], t => [(t, 1)]
  | (k, v) :: st, t => if k = t then (k, v + 1) :: st else (k, v) :: addCount st t

def issueStats (results : List InspectionReport) : List (String × Nat) :=
  ((results.map (·.issues)).flatten.map (·.issue_type)).foldl addCount []

/-- Specification-side notion used to state the first-encounter key order
of `issueStats`: the distinct elements of a list in order of first
occurrence. -/
def dedupFirstS (ts : List String) : List String :=
  ts.foldl (fun acc t => if acc.contains t then acc else acc ++ [t]) []

/-- Stable insertion of an element into a count-descending list: the
element goes before the first entry whose count does not exceed its own.
Folding `insDesc` from the right is exactly a stable descending sort —
the behaviour of `sorted(issue_stats.items(), key=lambda x: -x[1])`. -/
def insDesc (x : String × Nat) : List (String × Nat) → List (String × Nat)
  | [] => [x]
  | y :: ys => if y.2 ≤ x.2 then x :: y :: ys else y :: insDesc x ys

def stableSortDesc (l : List (String × Nat)) : List (String × Nat) :=
  l.foldr insDesc []

/-- `ReportGenerator._generate_recommendations` (called with a non-empty
report list; `ℚ` division by zero is harmlessly total here). -/
def generate_recommendations (results : List InspectionReport) : List String :=
  let n : ℚ := (results.length : ℚ)
  let avg_attitude := ((results.map (·.attitude_score)).sum) / n
  let avg_professional := ((results.map (·.professionalism_score)).sum) / n
  let avg_compliance := ((results.map (·.compliance_score)).sum) / n
  let recommendations :=
    (if avg_attitude < 80 then ["加强客服人员服务态度培训，提高客户满意度"] else []) ++
    (if avg_professional < 80 then ["加强产品知识培训，提高客服专业水平"] else []) ++
    (if avg_compliance < 80 then ["强化合规意识培训，确保服务符合规范"] else [])
  if recommendations.isEmpty then
    ["继续保持良好的服务质量", "定期进行质检，及时发现和解决问题"]
  else recommendations

/-- `ReportGenerator.generate_summary_report` (the report-file write, a
disk side effect, is not modelled). -/
def generate_summary_report (results : List InspectionReport) : SummaryReport :=
  if results.isEmpty then emptySummaryReport
  else
    { report_period := some "最近7天"
      total_sessions := results.length
      avg_score := ((results.map (·.overall_score)).sum) / (results.length : ℚ)
      score_distribution := scoreDistribution results
      top_issues := (stableSortDesc (issueStats results)).take 5
      recommendations := generate_recommendations results }

/-! ## `report_generator.py` — `ReviewWorkflow`

The workflow's two dicts, modelled as association lists with Python-dict
semantics: assignment to an existing key replaces in place, assignment to
a fresh key appends, `del` removes.  `datetime.now()` is the explicit
`now` argument (`%Y%m%d%H%M%S`, second granularity, for the generated
review id). -/

structure ReviewRecord where
  report : InspectionReport
  reviewer : String
  submitted_at : String
  status : String
  approved_by : Option String := none
  approved_at : Option String := none
  comments : Option String := none
  rejected_by : Option String := none
  rejected_at : Option String := none
  reasons : List String := []
deriving DecidableEq

structure WorkflowState where
  pending_reviews : List (String × ReviewRecord) := []
  completed_reviews : List (String × ReviewRecord) := []
deriving DecidableEq

/-- Python dict assignment `d[k] = v`: an existing key keeps its position
and gets the new value, a fresh key is appended. -/
def dictInsert (k : String) (v : ReviewRecord) :
    List (String × ReviewRecord) → List (String × ReviewRecord)
  | [] => [(k, v)]
  | (k0, v0) :: t => if k0 = k then (k0, v) :: t else (k0, v0) :: dictInsert k v t

/-- Python `del d[k]`. -/
def dictErase (k : String) (l : List (String × ReviewRecord)) :
    List (String × ReviewRecord) :=
  l.filter (fun kv => kv.1 ≠ k)

/-- `ReviewWorkflow.submit_for_review`: generates
`review_<session_id>_<now>` and stores a pending record; returns `True`
(the catch-all `False` branch is unreachable in the model, since nothing
in the body raises). -/
def submit_for_review (st : WorkflowState) (report : InspectionReport)
    (reviewer : String) (now : String) : Bool × WorkflowState :=
  let review_id := "review_" ++ report.session_id ++ "_" ++ now
  let entry : ReviewRecord :=
    { report := report, reviewer := reviewer, submitted_at := now, status := "pending" }
  (true, { st with pending_reviews := dictInsert review_id entry st.pending_reviews })

/-- `ReviewWorkflow.approve_report`: an unknown `review_id` raises
`ValueError`, caught by the handler, which returns `False` leaving the
state untouched; otherwise the record is marked approved, moved to the
completed dict and removed from pending. -/
def approve_report (st : WorkflowState) (review_id approver : String)
    (comments : Option String) (now : String) : Bool × WorkflowState :=
  match List.lookup review_id st.pending_reviews with
  | none => (false, st)
  | some review =>
    let review :=
      { review with
        status := "approved"
        approved_by := some approver
        approved_at := some now
        comments := comments }
    (true,
     { pending_reviews := dictErase review_id st.pending_reviews
       completed_reviews := dictInsert review_id review st.completed_reviews })

/-- `ReviewWorkflow.reject_report`: symmetric to `approve_report`. -/
def reject_report (st : WorkflowState) (review_id rejector : String)
    (reasons : List String) (now : String) : Bool × WorkflowState :=
  match List.lookup review_id st.pending_reviews with
  | none => (false, st)
  | some review =>
    let review :=
      { review with
        status := "rejected"
        rejected_by := some rejector
        rejected_at := some now
        reasons := reasons }
    (true,
     { pending_reviews := dictErase review_id st.pending_reviews
       completed_reviews := dictInsert review_id review st.completed_reviews })

/-- `ReviewWorkflow.get_pending_reviews`: a read-only projection of the
pending dict. -/
def get_pending_reviews (st : WorkflowState) :
    List (String × String × ℚ × String × String) :=
  st.pending_reviews.map (fun kv =>
    (kv.1, kv.2.report.session_id, kv.2.report.overall_score, kv.2.reviewer,
     kv.2.submitted_at))

/-! ## Helper lemmas -/

theorem firstHitFrom_eq_some_of {α : Type} (f : Nat → Option α) (i n k : Nat) (v : α)
    (hik : i ≤ k) (hkn : k ≤ i + n) (hv : f k = some v)
    (hnone : ∀ j, i ≤ j → j < k → f j = none) :
    firstHitFrom f i n = some v := by
  induction n generalizing i with
  | zero =>
    have hk : k = i := Nat.le_antisymm (by omega) hik
    subst hk
    simpa [firstHitFrom] using hv
  | succ n ih =>
    by_cases hki : k = i
    · subst hki
      simp [firstHitFrom, hv]
    · have hi : f i = none := hnone i (Nat.le_refl i) (by omega)
      have : firstHitFrom f (i + 1) n = some v :=
        ih (i + 1) (by omega) (by omega) (fun j h1 h2 => hnone j (by omega) h2)
      simp [firstHitFrom, hi, this]

theorem firstHitFrom_eq_none_of {α : Type} (f : Nat → Option α) (i n : Nat)
    (h : ∀ j, i ≤ j → j ≤ i + n → f j = none) :
    firstHitFrom f i n = none := by
  induction n generalizing i with
  | zero => simpa [firstHitFrom] using h i (Nat.le_refl i) (by omega)
  | succ n ih =>
    have hi : f i = none := h i (Nat.le_refl i) (by omega)
    have : firstHitFrom f (i + 1) n = none :=
      ih (i + 1) (fun j h1 h2 => h j (by omega) (by omega))
    simp [firstHitFrom, hi, this]

theorem lookup_dictErase_self (k : String) (l : List (String × ReviewRecord)) :
    List.lookup k (dictErase k l) = none := by
  induction l with
  | nil => simp [dictErase]
  | cons kv t ih =>
    by_cases h : kv.1 = k
    · simpa [dictErase, h] using ih
    · have hbeq : (k == kv.1) = false := by
        simp [beq_iff_eq]
        exact fun hh => h hh.symm
      simpa [dictErase, h, List.lookup, hbeq] using ih

theorem lookup_dictInsert_self (k : String) (v : ReviewRecord)
    (l : List (String × ReviewRecord)) :
    List.lookup k (dictInsert k v l) = some v := by
  induction l with
  | nil => simp [dictInsert, List.lookup]
  | cons kv t ih =>
    by_cases h : kv.1 = k
    · simp [dictInsert, h, List.lookup]
    · have hbeq : (k == kv.1) = false := by
        simp [beq_iff_eq]
        exact fun hh => h hh.symm
      simpa [dictInsert, h, List.lookup, hbeq] using ih

theorem length_dictInsert_absent (k : String) (v : ReviewRecord)
    (l : List (String × ReviewRecord)) (h : List.lookup k l = none) :
    (dictInsert k v l).length = l.length + 1 := by
  induction l with
  | nil => simp [dictInsert]
  | cons kv t ih =>
    rcases kv with ⟨k0, v0⟩
    by_cases hk : k0 = k
    · subst hk
      simp [List.lookup] at h
    · have hbeq : (k == k0) = false := by
        simp [beq_iff_eq]
        exact fun hh => hk hh.symm
      have h' : List.lookup k t = none := by simpa [List.lookup, hbeq] using h
      simp [dictInsert, hk, ih h']

theorem length_dictInsert_present (k : String) (v : ReviewRecord)
    (l : List (String × ReviewRecord)) (h : (List.lookup k l).isSome) :
    (dictInsert k v l).length = l.length := by
  induction l with
  | nil => simp [List.lookup] at h
  | cons kv t ih =>
    rcases kv with ⟨k0, v0⟩
    by_cases hk : k0 = k
    · simp [dictInsert, hk]
    · have hbeq : (k == k0) = false := by
        simp [beq_iff_eq]
        exact fun hh => hk hh.symm
      have h' : (List.lookup k t).isSome := by simpa [List.lookup, hbeq] using h
      simp [dictInsert, hk, ih h']

theorem mem_dropWhile_iff_of_not {c : Char} {p : Char → Bool} (hc : p c = false) :
    ∀ l : List Char, c ∈ l.dropWhile p ↔ c ∈ l := by
  intro l
  induction l with
  | nil => simp
  | cons x t ih =>
    by_cases hx : p x
    · rw [List.dropWhile_cons_of_pos hx, ih]
      constructor
      · exact fun h => List.mem_cons_of_mem x h
      · intro h
        rcases List.mem_cons.mp h with h | h
        · subst h
          rw [hx] at hc
          exact absurd hc (by simp)
        · exact h
    · rw [List.dropWhile_cons_of_neg hx]

theorem mem_pyStrip_iff {c : Char} (hc : isPySpace c = false) (l : List Char) :
    c ∈ pyStrip l ↔ c ∈ l := by
  unfold pyStrip
  rw [List.mem_reverse, mem_dropWhile_iff_of_not hc, List.mem_reverse,
    mem_dropWhile_iff_of_not hc]

theorem pyStrip_eq_nil_of_all_space {l : List Char}
    (h : ∀ c ∈ l, isPySpace c = true) : pyStrip l = [] := by
  have h1 : l.dropWhile isPySpace = [] := by
    rw [List.dropWhile_eq_nil_iff]
    intro x hx
    exact h x hx
  simp [pyStrip, h1]

theorem mem_insDesc {z x : String × Nat} {l : List (String × Nat)} :
    z ∈ insDesc x l ↔ z = x ∨ z ∈ l := by
  induction l with
  | nil => simp [insDesc]
  | cons y t ih =>
    by_cases h : y.2 ≤ x.2
    · simp [insDesc, h]
    · simp only [insDesc, h, if_false, List.mem_cons, ih]
      tauto

theorem pairwise_insDesc {x : String × Nat} {l : List (String × Nat)}
    (h : l.Pairwise (fun a b => b.2 ≤ a.2)) :
    (insDesc x l).Pairwise (fun a b => b.2 ≤ a.2) := by
  induction l with
  | nil => simp [insDesc]
  | cons y t ih =>
    rcases List.pairwise_cons.mp h with ⟨hy, ht⟩
    by_cases hle : y.2 ≤ x.2
    · rw [insDesc, if_pos hle]
      refine List.pairwise_cons.mpr ⟨?_, h⟩
      intro z hz
      rcases List.mem_cons.mp hz with hz | hz
      · subst hz
        exact hle
      · exact Nat.le_trans (hy z hz) hle
    · rw [insDesc, if_neg hle]
      refine List.pairwise_cons.mpr ⟨?_, ih ht⟩
      intro z hz
      rcases mem_insDesc.mp hz with hz | hz
      · subst hz
        omega
      · exact hy z hz

theorem perm_insDesc (x : String × Nat) (l : List (String × Nat)) :
    List.Perm (insDesc x l) (x :: l) := by
  induction l with
  | nil => simp [insDesc]
  | cons y t ih =>
    by_cases h : y.2 ≤ x.2
    · simp [insDesc, h]
    · rw [insDesc, if_neg h]
      exact List.Perm.trans (List.Perm.cons y ih) (List.Perm.swap x y t)

theorem filter_insDesc (c : Nat) (x : String × Nat) (l : List (String × Nat)) :
    (insDesc x l).filter (fun y => y.2 = c) =
      if x.2 = c then x :: l.filter (fun y => y.2 = c)
      else l.filter (fun y => y.2 = c) := by
  induction l with
  | nil =>
    by_cases hx : x.2 = c <;> simp [insDesc, List.filter, hx]
  | cons y t ih =>
    by_cases h : y.2 ≤ x.2
    · rw [insDesc, if_pos h]
      by_cases hx : x.2 = c
      · simp [List.filter, hx]
      · have hx' : decide (x.2 = c) = false := by simpa using hx
        simp [List.filter, hx', hx]
    · rw [insDesc, if_neg h]
      by_cases hy : y.2 = c
      · have hxc : x.2 ≠ c := by omega
        rw [if_neg hxc] at ih ⊢
        simp [List.filter, hy, ih]
      · have hy' : decide (y.2 = c) = false := by simpa using hy
        by_cases hx : x.2 = c <;> simp [List.filter, hy', ih, hx]

theorem perm_stableSortDesc (l : List (String × Nat)) :
    List.Perm (stableSortDesc l) l := by
  induction l with
  | nil => simp [stableSortDesc]
  | cons x t ih =>
    have : stableSortDesc (x :: t) = insDesc x (stableSortDesc t) := rfl
    rw [this]
    exact List.Perm.trans (perm_insDesc x (stableSortDesc t)) (List.Perm.cons x ih)

theorem pairwise_stableSortDesc (l : List (String × Nat)) :
    (stableSortDesc l).Pairwise (fun a b => b.2 ≤ a.2) := by
  induction l with
  | nil => simp [stableSortDesc]
  | cons x t ih =>
    have : stableSortDesc (x :: t) = insDesc x (stableSortDesc t) := rfl
    rw [this]
    exact pairwise_insDesc ih

theorem filter_stableSortDesc (c : Nat) (l : List (String × Nat)) :
    (stableSortDesc l).filter (fun y => y.2 = c) = l.filter (fun y => y.2 = c) := by
  induction l with
  | nil => simp [stableSortDesc]
  | cons x t ih =>
    have hrw : stableSortDesc (x :: t) = insDesc x (stableSortDesc t) := rfl
    rw [hrw, filter_insDesc]
    by_cases hx : x.2 = c
    · simp [List.filter, hx, ih]
    · have hx' : decide (x.2 = c) = false := by simpa using hx
      simp [List.filter, hx, hx', ih]

theorem lookup_addCount (st : List (String × Nat)) (t u : String) :
    List.lookup t (addCount st u) =
      if t = u then some (((List.lookup t st).getD 0) + 1) else List.lookup t st := by
  induction st with
  | nil =>
    by_cases h : t = u
    · simp [addCount, List.lookup, h]
    · have hbeq : (t == u) = false := by simpa using h
      simp [addCount, List.lookup, hbeq, h]
  | cons kv st ih =>
    rcases kv with ⟨k, v⟩
    by_cases hku : k = u
    · subst hku
      by_cases htk : t = k
      · subst htk
        simp [addCount, List.lookup]
      · have hbeq : (t == k) = false := by simpa using htk
        simp [addCount, List.lookup, hbeq, htk]
    · by_cases htk : t = k
      · subst htk
        simp [addCount, hku, List.lookup]
      · have hbeq : (t == k) = false := by simpa using htk
        simp [addCount, hku, List.lookup, hbeq, ih]

theorem lookup_foldl_addCount (ts : List String) (st : List (String × Nat)) (t : String) :
    (List.lookup t (ts.foldl addCount st)).getD 0 =
      ((List.lookup t st).getD 0) + ts.count t := by
  induction ts generalizing st with
  | nil => simp
  | cons u ts ih =>
    rw [List.foldl_cons, ih, lookup_addCount, List.count_cons]
    by_cases h : t = u
    · have hbeq : (u == t) = true := by simpa using h.symm
      simp [h, hbeq]
      omega
    · have hbeq : (u == t) = false := by
        simp [beq_iff_eq]
        exact fun hh => h hh.symm
      simp [h, hbeq]

theorem keys_addCount (st : List (String × Nat)) (u : String) :
    (addCount st u).map Prod.fst =
      if (st.map Prod.fst).contains u then st.map Prod.fst
      else st.map Prod.fst ++ [u] := by
  induction st with
  | nil => simp [addCount]
  | cons kv st ih =>
    rcases kv with ⟨k, v⟩
    by_cases hku : k = u
    · subst hku
      simp [addCount, List.contains_cons]
    · have hbeq : (u == k) = false := by
        simp [beq_iff_eq]
        exact fun hh => hku hh.symm
      simp only [addCount, hku, if_false, List.map_cons, List.contains_cons, hbeq,
        Bool.false_or, ih]
      by_cases hmem : (st.map Prod.fst).contains u
      · rw [if_pos hmem, if_pos hmem]
      · rw [if_neg hmem, if_neg hmem, List.cons_append]

theorem keys_foldl_addCount (ts : List String) (st : List (String × Nat)) :
    (ts.foldl addCount st).map Prod.fst =
      ts.foldl (fun acc t => if acc.contains t then acc else acc ++ [t])
        (st.map Prod.fst) := by
  induction ts generalizing st with
  | nil => simp
  | cons u ts ih =>
    rw [List.foldl_cons, List.foldl_cons, ih, keys_addCount]

theorem foldl_distStep (l : List InspectionReport) (b1 b2 b3 b4 : Nat) :
    l.foldl distStep (b1, b2, b3, b4) =
      (b1 + l.countP (fun r => decide (90 ≤ r.overall_score)),
       b2 + l.countP (fun r => !(decide (90 ≤ r.overall_score)) &&
              decide (80 ≤ r.overall_score)),
       b3 + l.countP (fun r => !(decide (90 ≤ r.overall_score)) &&
              !(decide (80 ≤ r.overall_score)) && decide (60 ≤ r.overall_score)),
       b4 + l.countP (fun r => !(decide (90 ≤ r.overall_score)) &&
              !(decide (80 ≤ r.overall_score)) && !(decide (60 ≤ r.overall_score)))) := by
  induction l generalizing b1 b2 b3 b4 with
  | nil => simp
  | cons r t ih =>
    rw [List.foldl_cons]
    by_cases h1 : (90 : ℚ) ≤ r.overall_score
    · rw [show distStep (b1, b2, b3, b4) r = (b1 + 1, b2, b3, b4) by simp [distStep, h1], ih]
      simp [List.countP_cons, h1]
      omega
    · by_cases h2 : (80 : ℚ) ≤ r.overall_score
      · rw [show distStep (b1, b2, b3, b4) r = (b1, b2 + 1, b3, b4) by
          simp [distStep, h1, h2], ih]
        simp [List.countP_cons, h1, h2]
        omega
      · by_cases h3 : (60 : ℚ) ≤ r.overall_score
        · rw [show distStep (b1, b2, b3, b4) r = (b1, b2, b3 + 1, b4) by
            simp [distStep, h1, h2, h3], ih]
          simp [List.countP_cons, h1, h2, h3]
          omega
        · rw [show distStep (b1, b2, b3, b4) r = (b1, b2, b3, b4 + 1) by
            simp [distStep, h1, h2, h3], ih]
          simp [List.countP_cons, h1, h2, h3]
          omega

theorem countP_chain_sum (l : List InspectionReport) :
    l.countP (fun r => decide (90 ≤ r.overall_score)) +
    l.countP (fun r => !(decide (90 ≤ r.overall_score)) &&
      decide (80 ≤ r.overall_score)) +
    l.countP (fun r => !(decide (90 ≤ r.overall_score)) &&
      !(decide (80 ≤ r.overall_score)) && decide (60 ≤ r.overall_score)) +
    l.countP (fun r => !(decide (90 ≤ r.overall_score)) &&
      !(decide (80 ≤ r.overall_score)) && !(decide (60 ≤ r.overall_score))) =
    l.length := by
  induction l with
  | nil => simp
  | cons r t ih =>
    simp only [List.countP_cons, List.length_cons]
    by_cases h1 : (90 : ℚ) ≤ r.overall_score <;>
      by_cases h2 : (80 : ℚ) ≤ r.overall_score <;>
        by_cases h3 : (60 : ℚ) ≤ r.overall_score <;>
          simp [h1, h2, h3] <;> omega

theorem searchScore_eq_some_of (lbl cs : List Char) (k : Nat) (q : ℚ)
    (hk : k ≤ cs.length) (hq : labelNumAt lbl cs k = some q)
    (hfirst : ∀ j < k, labelNumAt lbl cs j = none) :
    searchScore lbl cs = some q :=
  firstHitFrom_eq_some_of (labelNumAt lbl cs) 0 cs.length k q (Nat.zero_le k)
    (by omega) hq (fun j _ hj => hfirst j hj)

theorem searchScore_eq_none_of (lbl cs : List Char)
    (h : ∀ j, j ≤ cs.length → labelNumAt lbl cs j = none) :
    searchScore lbl cs = none :=
  firstHitFrom_eq_none_of (labelNumAt lbl cs) 0 cs.length
    (fun j _ hj => h j (by omega))

/-! ## The claims -/

/-- Claim C1 (code bug): for the input
`"客户：您好\n客服：您好，请问有什么可以帮您？"` the source does NOT
produce the two turns `(客户, 您好)` and `(客服, …)` claimed by the
specification.  The speaker-marker pattern does match (the label `客户`),
but the source takes `match[-1]` — the lookahead's capture group, here
empty — as the content, so the match is discarded; `客服` is not in the
recognized label set at all; and the fallback line scanner tests only for
the ASCII colon `':'`, which the full-width `：` input lacks.  The result
is a single turn with speaker `未知` whose content is the whole input
space-joined.  Only the `detect_format = "text"` part of the claim holds.
This contradicts the extractor's own documentation (its pattern comment
gives `客户: xxx 客服: xxx` as the format to capture). -/
theorem claim_c1_scenario_divergence :
    extract_dialogue_turns "客户：您好\n客服：您好，请问有什么可以帮您？" =
      [⟨Json.str "未知", Json.str "客户：您好 客服：您好，请问有什么可以帮您？"⟩] ∧
    (parse_conversation "客户：您好\n客服：您好，请问有什么可以帮您？" "text").turns.length = 1 ∧
    (parse_conversation "客户：您好\n客服：您好，请问有什么可以帮您？" "text").participants =
      [Json.str "未知"] ∧
    detect_format "客户：您好\n客服：您好，请问有什么可以帮您？" = "text" := by
  refine ⟨?_, ?_, ?_, ?_⟩ <;> with_unfolding_all rfl

/-- Claim C2 (code bug): a syntactically valid top-level JSON array of
turn objects does NOT parse into a conversation with those turns.  In the
list branch of `_parse_json` the local `session_id` is never assigned, so
the `session_id or "json_session"` expression raises `UnboundLocalError`
for every top-level array, and `parse_conversation` converts that into
the `parse_error` sentinel — contradicting the claim that arrays succeed
and only other JSON shapes yield the sentinel. -/
theorem claim_c2_array_unbound_local :
    jsonLoads "[\x7b\"speaker\": \"客户\", \"content\": \"您好\"\x7d]" =
      some (Json.arr [Json.obj [("speaker", Json.str "客户"), ("content", Json.str "您好")]]) ∧
    parse_conversation "[\x7b\"speaker\": \"客户\", \"content\": \"您好\"\x7d]" "json" =
      { session_id := Json.str "parse_error", participants := [], turns := [],
        metadata := [("error", "UnboundLocalError: cannot access local variable session_id where it is not associated with a value")] } := by
  refine ⟨?_, ?_⟩ <;> with_unfolding_all rfl

/-- Claim C3 (confirmed): each of the four scores is set from the first
occurrence of its Chinese label followed by a number (`labelNumAt` is a
match of `<label>[：:\s]*(\d+\.?\d*)` at one position); a label with no
match anywhere leaves its score at 0; and the concrete scenario
`"总体评分：85\n服务态度：90\n总结：表现良好"` yields
`overall = 85, attitude = 90, professionalism = 0, compliance = 0,
summary = "表现良好"`. -/
theorem claim_c3_score_extraction (response : String) (sid : String) :
    (∀ k q, k ≤ response.data.length →
      labelNumAt "总体评分".data response.data k = some q →
      (∀ j < k, labelNumAt "总体评分".data response.data j = none) →
      (parse_inspection_response response sid).overall_score = q) ∧
    ((∀ j, j ≤ response.data.length →
        labelNumAt "总体评分".data response.data j = none) →
      (parse_inspection_response response sid).overall_score = 0) ∧
    (∀ k q, k ≤ response.data.length →
      labelNumAt "服务态度".data response.data k = some q →
      (∀ j < k, labelNumAt "服务态度".data response.data j = none) →
      (parse_inspection_response response sid).attitude_score = q) ∧
    ((∀ j, j ≤ response.data.length →
        labelNumAt "服务态度".data response.data j = none) →
      (parse_inspection_response response sid).attitude_score = 0) ∧
    (∀ k q, k ≤ response.data.length →
      labelNumAt "专业性".data response.data k = some q →
      (∀ j < k, labelNumAt "专业性".data response.data j = none) →
      (parse_inspection_response response sid).professionalism_score = q) ∧
    ((∀ j, j ≤ response.data.length →
        labelNumAt "专业性".data response.data j = none) →
      (parse_inspection_response response sid).professionalism_score = 0) ∧
    (∀ k q, k ≤ response.data.length →
      labelNumAt "合规性".data response.data k = some q →
      (∀ j < k, labelNumAt "合规性".data response.data j = none) →
      (parse_inspection_response response sid).compliance_score = q) ∧
    ((∀ j, j ≤ response.data.length →
        labelNumAt "合规性".data response.data j = none) →
      (parse_inspection_response response sid).compliance_score = 0) ∧
    parse_inspection_response "总体评分：85\n服务态度：90\n总结：表现良好" sid =
      { session_id := sid, overall_score := 85, attitude_score := 90,
        professionalism_score := 0, compliance_score := 0, issues := [],
        summary := "表现良好" } := by
  refine ⟨?_, ?_, ?_, ?_, ?_, ?_, ?_, ?_, ?_⟩
  · intro k q hk hq hfirst
    have h := searchScore_eq_some_of "总体评分".data response.data k q hk hq hfirst
    simp [parse_inspection_response, h]
  · intro hnone
    have h := searchScore_eq_none_of "总体评分".data response.data hnone
    simp [parse_inspection_response, h]
  · intro k q hk hq hfirst
    have h := searchScore_eq_some_of "服务态度".data response.data k q hk hq hfirst
    simp [parse_inspection_response, h]
  · intro hnone
    have h := searchScore_eq_none_of "服务态度".data response.data hnone
    simp [parse_inspection_response, h]
  · intro k q hk hq hfirst
    have h := searchScore_eq_some_of "专业性".data response.data k q hk hq hfirst
    simp [parse_inspection_response, h]
  · intro hnone
    have h := searchScore_eq_none_of "专业性".data response.data hnone
    simp [parse_inspection_response, h]
  · intro k q hk hq hfirst
    have h := searchScore_eq_some_of "合规性".data response.data k q hk hq hfirst
    simp [parse_inspection_response, h]
  · intro hnone
    have h := searchScore_eq_none_of "合规性".data response.data hnone
    simp [parse_inspection_response, h]
  · with_unfolding_all rfl

/-- Witness for C3: the claim theorem applied at the concrete scenario —
the `总体评分` label first matches at position 0 with value 85, and the
`专业性` label matches nowhere. -/
theorem claim_c3_witness :
    (parse_inspection_response "总体评分：85\n服务态度：90\n总结：表现良好" "s1").overall_score = 85 ∧
    (parse_inspection_response "总体评分：85\n服务态度：90\n总结：表现良好" "s1").professionalism_score = 0 := by
  constructor
  · exact (claim_c3_score_extraction "总体评分：85\n服务态度：90\n总结：表现良好" "s1").1
      0 85 (Nat.zero_le _) (by with_unfolding_all decide)
      (fun j hj => absurd hj (Nat.not_lt_zero j))
  · exact (claim_c3_score_extraction "总体评分：85\n服务态度：90\n总结：表现良好" "s1").2.2.2.2.2.1
      (by with_unfolding_all decide)

theorem approve_report_not_pending (st : WorkflowState) (rid approver : String)
    (comments : Option String) (now : String)
    (h : List.lookup rid st.pending_reviews = none) :
    approve_report st rid approver comments now = (false, st) := by
  simp [approve_report, h]

theorem reject_report_not_pending (st : WorkflowState) (rid rejector : String)
    (reasons : List String) (now : String)
    (h : List.lookup rid st.pending_reviews = none) :
    reject_report st rid rejector reasons now = (false, st) := by
  simp [reject_report, h]

theorem approve_report_pending (st : WorkflowState) (rid approver : String)
    (comments : Option String) (now : String) (r : ReviewRecord)
    (h : List.lookup rid st.pending_reviews = some r) :
    approve_report st rid approver comments now =
      (true,
       { pending_reviews := dictErase rid st.pending_reviews
         completed_reviews :=
           dictInsert rid
             { r with
               status := "approved"
               approved_by := some approver
               approved_at := some now
               comments := comments }
             st.completed_reviews }) := by
  simp [approve_report, h]

theorem reject_report_pending (st : WorkflowState) (rid rejector : String)
    (reasons : List String) (now : String) (r : ReviewRecord)
    (h : List.lookup rid st.pending_reviews = some r) :
    reject_report st rid rejector reasons now =
      (true,
       { pending_reviews := dictErase rid st.pending_reviews
         completed_reviews :=
           dictInsert rid
             { r with
               status := "rejected"
               rejected_by := some rejector
               rejected_at := some now
               reasons := reasons }
             st.completed_reviews }) := by
  simp [reject_report, h]

/-- Claim C4 (confirmed): approving or rejecting a `review_id` that is
not pending returns `false` and leaves both collections unchanged; after
a successful approve or reject the id is no longer pending, so any second
approve/reject of it returns `false` and changes nothing — approved and
rejected are terminal. -/
theorem claim_c4_terminal_reviews (st : WorkflowState)
    (rid approver rejector : String) (comments : Option String)
    (reasons : List String) (now now2 : String) :
    (List.lookup rid st.pending_reviews = none →
      approve_report st rid approver comments now = (false, st) ∧
      reject_report st rid rejector reasons now = (false, st)) ∧
    (∀ r, List.lookup rid st.pending_reviews = some r →
      (approve_report st rid approver comments now).1 = true ∧
      List.lookup rid (approve_report st rid approver comments now).2.pending_reviews = none ∧
      approve_report (approve_report st rid approver comments now).2 rid approver comments now2 =
        (false, (approve_report st rid approver comments now).2) ∧
      reject_report (approve_report st rid approver comments now).2 rid rejector reasons now2 =
        (false, (approve_report st rid approver comments now).2)) ∧
    (∀ r, List.lookup rid st.pending_reviews = some r →
      (reject_report st rid rejector reasons now).1 = true ∧
      List.lookup rid (reject_report st rid rejector reasons now).2.pending_reviews = none ∧
      approve_report (reject_report st rid rejector reasons now).2 rid approver comments now2 =
        (false, (reject_report st rid rejector reasons now).2) ∧
      reject_report (reject_report st rid rejector reasons now).2 rid rejector reasons now2 =
        (false, (reject_report st rid rejector reasons now).2)) := by
  refine ⟨?_, ?_, ?_⟩
  · intro h
    exact ⟨approve_report_not_pending st rid approver comments now h,
           reject_report_not_pending st rid rejector reasons now h⟩
  · intro r h
    rw [approve_report_pending st rid approver comments now r h]
    refine ⟨rfl, lookup_dictErase_self rid st.pending_reviews, ?_, ?_⟩
    · exact approve_report_not_pending _ rid approver comments now2
        (lookup_dictErase_self rid st.pending_reviews)
    · exact reject_report_not_pending _ rid rejector reasons now2
        (lookup_dictErase_self rid st.pending_reviews)
  · intro r h
    rw [reject_report_pending st rid rejector reasons now r h]
    refine ⟨rfl, lookup_dictErase_self rid st.pending_reviews, ?_, ?_⟩
    · exact approve_report_not_pending _ rid approver comments now2
        (lookup_dictErase_self rid st.pending_reviews)
    · exact reject_report_not_pending _ rid rejector reasons now2
        (lookup_dictErase_self rid st.pending_reviews)

/-- Witness for C4: a concrete one-entry workflow — an unknown id is
refused with the state unchanged, and after a successful approve the same
id can no longer be approved or rejected. -/
theorem claim_c4_witness :
    (approve_report
      { pending_reviews :=
          [("review_s1_t1", { report := { session_id := "s1" }, reviewer := "alice",
                              submitted_at := "t1", status := "pending" })]
        completed_reviews := [] }
      "missing" "bob" none "t2").1 = false ∧
    (approve_report
      { pending_reviews :=
          [("review_s1_t1", { report := { session_id := "s1" }, reviewer := "alice",
                              submitted_at := "t1", status := "pending" })]
        completed_reviews := [] }
      "review_s1_t1" "bob" none "t2").1 = true ∧
    (approve_report
      (approve_report
        { pending_reviews :=
            [("review_s1_t1", { report := { session_id := "s1" }, reviewer := "alice",
                                submitted_at := "t1", status := "pending" })]
          completed_reviews := [] }
        "review_s1_t1" "bob" none "t2").2
      "review_s1_t1" "bob" none "t3").1 = false := by
  refine ⟨?_, ?_, ?_⟩
  · exact congrArg Prod.fst
      ((claim_c4_terminal_reviews
        { pending_reviews :=
            [("review_s1_t1", { report := { session_id := "s1" }, reviewer := "alice",
                                submitted_at := "t1", status := "pending" })]
          completed_reviews := [] }
        "missing" "bob" "bob" none [] "t2" "t3").1 (by with_unfolding_all rfl)).1
  · exact ((claim_c4_terminal_reviews
      { pending_reviews :=
          [("review_s1_t1", { report := { session_id := "s1" }, reviewer := "alice",
                              submitted_at := "t1", status := "pending" })]
        completed_reviews := [] }
      "review_s1_t1" "bob" "bob" none [] "t2" "t3").2.1
      { report := { session_id := "s1" }, reviewer := "alice",
        submitted_at := "t1", status := "pending" }
      (by with_unfolding_all rfl)).1
  · exact congrArg Prod.fst
      (((claim_c4_terminal_reviews
        { pending_reviews :=
            [("review_s1_t1", { report := { session_id := "s1" }, reviewer := "alice",
                                submitted_at := "t1", status := "pending" })]
          completed_reviews := [] }
        "review_s1_t1" "bob" "bob" none [] "t2" "t3").2.1
        { report := { session_id := "s1" }, reviewer := "alice",
          submitted_at := "t1", status := "pending" }
        (by with_unfolding_all rfl)).2.2.1)

/-- Claim C5 (confirmed): `parse_conversation` is total — every exception
raised by the format-specific parsers (`parseResult` in `Except.error e`)
is converted into a conversation with the `parse_error` sentinel id and
the cause in `metadata["error"]`; a JSON decoding failure likewise yields
the sentinel with an error entry. -/
theorem claim_c5_parse_never_raises (raw fmt : String) :
    (∀ e, parseResult raw fmt = Except.error e →
      parse_conversation raw fmt =
        { session_id := Json.str "parse_error", participants := [], turns := [],
          metadata := [("error", e)] }) ∧
    (∀ c, parseResult raw fmt = Except.ok c → parse_conversation raw fmt = c) ∧
    (jsonLoads raw = none →
      parse_conversation raw "json" =
        { session_id := Json.str "parse_error", participants := [], turns := [],
          metadata := [("error", "JSON解析错误")] }) := by
  refine ⟨?_, ?_, ?_⟩
  · intro e h
    simp [parse_conversation, h]
  · intro c h
    simp [parse_conversation, h]
  · intro h
    simp [parse_conversation, parseResult, parse_json, h]

/-- Witness for C5: `"[1]"` raises inside the JSON parser
(`AttributeError` on the non-dict element) and is recovered into the
sentinel; `"{{"` fails to decode and yields the sentinel with the
decode-error entry. -/
theorem claim_c5_witness :
    parse_conversation "[1]" "json" =
      { session_id := Json.str "parse_error", participants := [], turns := [],
        metadata := [("error", "AttributeError: object has no attribute get")] } ∧
    parse_conversation "\x7b\x7b" "json" =
      { session_id := Json.str "parse_error", participants := [], turns := [],
        metadata := [("error", "JSON解析错误")] } := by
  constructor
  · exact (claim_c5_parse_never_raises "[1]" "json").1
      "AttributeError: object has no attribute get" (by with_unfolding_all rfl)
  · exact (claim_c5_parse_never_raises "\x7b\x7b" "json").2.2 (by with_unfolding_all rfl)

/-- Claim C6, counterexample: the response `"问题"` produces a single
split block which contains the keyword `问题`, yet no issue is emitted —
the source only scans the blocks after the first (`issue_blocks[1:]`),
so the claim "every resulting block containing 问题 or 不足 emits exactly
one Issue" fails on the block preceding the first numbered marker. -/
theorem claim_c6_counterexample :
    splitNumDot [] ("问题".data.length + 1) "问题".data = ["问题".data] ∧
    hasSub "问题".data "问题".data = true ∧
    (parse_inspection_response "问题" "s").issues = [] := by
  refine ⟨?_, ?_, ?_⟩ <;> with_unfolding_all rfl

/-- Claim C6, amended (corrected): issue extraction considers only the
blocks after the first produced by splitting on `\d+\.` — the text before
the first numbered marker is skipped; each such block containing `问题`
or `不足` yields exactly one issue, in block order, whose description is
the stripped block truncated to 200 code points and whose severity is
`高` if the block contains `严重`, else `低` if it contains `轻微`, else
`中`. -/
theorem claim_c6_amended_issue_extraction (response : String) (sid : String) :
    (parse_inspection_response response sid).issues =
      ((splitNumDot [] (response.data.length + 1) response.data).drop 1).filterMap
        (fun b =>
          if hasSub b "问题".data || hasSub b "不足".data then
            some { issue_type := "服务问题"
                   description := String.mk ((pyStrip b).take 200)
                   severity :=
                     if hasSub b "严重".data then "高"
                     else if hasSub b "轻微".data then "低"
                     else "中" }
          else none) ∧
    (parse_inspection_response "1. 服务严重问题 2. 轻微不足 3. 没事 4. 有问题" sid).issues =
      [{ issue_type := "服务问题", description := "服务严重问题", severity := "高" },
       { issue_type := "服务问题", description := "轻微不足", severity := "低" },
       { issue_type := "服务问题", description := "有问题", severity := "中" }] := by
  constructor
  · rfl
  · with_unfolding_all rfl

/-- Claim C8, counterexample: two submissions of a report for the same
session within the same second generate the same `review_id`; the second
one overwrites the first pending record, so both calls "succeed" but the
pending count stays at 1 — the claim that every successful submission
adds its own distinct record fails. -/
theorem claim_c8_counterexample :
    (submit_for_review {} { session_id := "s1" } "alice" "20260101120000").1 = true ∧
    (submit_for_review {} { session_id := "s1" } "alice" "20260101120000").2.pending_reviews.length = 1 ∧
    (submit_for_review
      (submit_for_review {} { session_id := "s1" } "alice" "20260101120000").2
      { session_id := "s1" } "alice" "20260101120000").1 = true ∧
    (submit_for_review
      (submit_for_review {} { session_id := "s1" } "alice" "20260101120000").2
      { session_id := "s1" } "alice" "20260101120000").2.pending_reviews.length = 1 := by
  refine ⟨?_, ?_, ?_, ?_⟩ <;> with_unfolding_all rfl

/-- Claim C8, amended (corrected): `submit_for_review` always returns
true, never touches the completed collection, and stores the record under
`review_id = "review_" + session_id + "_" + timestamp`; the pending count
grows by one exactly when that review id is not already pending — a
same-session submission in the same second reuses the id and overwrites
the record in place, leaving the count unchanged. -/
theorem claim_c8_amended_submit (st : WorkflowState) (report : InspectionReport)
    (reviewer now : String) :
    (submit_for_review st report reviewer now).1 = true ∧
    (submit_for_review st report reviewer now).2.completed_reviews = st.completed_reviews ∧
    List.lookup ("review_" ++ report.session_id ++ "_" ++ now)
        (submit_for_review st report reviewer now).2.pending_reviews =
      some { report := report, reviewer := reviewer, submitted_at := now,
             status := "pending" } ∧
    (List.lookup ("review_" ++ report.session_id ++ "_" ++ now) st.pending_reviews = none →
      (submit_for_review st report reviewer now).2.pending_reviews.length =
        st.pending_reviews.length + 1) ∧
    (∀ r0, List.lookup ("review_" ++ report.session_id ++ "_" ++ now) st.pending_reviews =
        some r0 →
      (submit_for_review st report reviewer now).2.pending_reviews.length =
        st.pending_reviews.length) := by
  refine ⟨rfl, rfl, ?_, ?_, ?_⟩
  · exact lookup_dictInsert_self _ _ _
  · intro h
    exact length_dictInsert_absent _ _ _ h
  · intro r0 h
    exact length_dictInsert_present _ _ _ (by rw [h]; rfl)

/-- Witness for the amended C8: submitting into an empty workflow grows
the pending collection from 0 to 1. -/
theorem claim_c8_witness :
    (submit_for_review {} { session_id := "s1" } "alice" "t1").2.pending_reviews.length = 1 := by
  have h := (claim_c8_amended_submit {} { session_id := "s1" } "alice" "t1").2.2.2.1
    (by with_unfolding_all rfl)
  simpa using h

theorem startsJsonLike_iff (cs : List Char) :
    startsJsonLike cs = true ↔
      ((∃ t, cs = '\x7b' :: t) ∨ (∃ t, cs = '[' :: t)) := by
  cases cs with
  | nil => simp [startsJsonLike]
  | cons c t =>
    simp only [startsJsonLike, Bool.or_eq_true, decide_eq_true_eq]
    constructor
    · rintro (h | h) <;> subst h
      · exact Or.inl ⟨t, rfl⟩
      · exact Or.inr ⟨t, rfl⟩
    · rintro (⟨t', ht⟩ | ⟨t', ht⟩)
      · injection ht with h1 h2
        exact Or.inl h1
      · injection ht with h1 h2
        exact Or.inr h1

/-- Claim C9 (confirmed): `detect_format` returns `"json"` exactly when
the stripped content starts with a brace or bracket and decodes as JSON;
otherwise `"text"` exactly when the content contains `':'` or `'：'`
anywhere; otherwise `"unknown"` — in particular every empty or
whitespace-only input yields `"unknown"`. -/
theorem claim_c9_detect_format (s : String) :
    (detect_format s = "json" ↔
      (((∃ t, pyStrip s.data = '\x7b' :: t) ∨ (∃ t, pyStrip s.data = '[' :: t)) ∧
        (∃ j, jsonLoadsL (pyStrip s.data) = some j))) ∧
    (detect_format s = "text" ↔
      (¬(((∃ t, pyStrip s.data = '\x7b' :: t) ∨ (∃ t, pyStrip s.data = '[' :: t)) ∧
          (∃ j, jsonLoadsL (pyStrip s.data) = some j)) ∧
        (':' ∈ s.data ∨ '：' ∈ s.data))) ∧
    (detect_format s = "unknown" ↔
      (¬(((∃ t, pyStrip s.data = '\x7b' :: t) ∨ (∃ t, pyStrip s.data = '[' :: t)) ∧
          (∃ j, jsonLoadsL (pyStrip s.data) = some j)) ∧
        ¬(':' ∈ s.data ∨ '：' ∈ s.data))) ∧
    ((∀ c ∈ s.data, isPySpace c = true) → detect_format s = "unknown") := by
  have hc1 : isPySpace ':' = false := by decide
  have hc2 : isPySpace '：' = false := by decide
  have hmem1 : ((pyStrip s.data).any (· = ':') = true) ↔ ':' ∈ s.data := by
    rw [List.any_eq_true]
    constructor
    · rintro ⟨x, hx, hxe⟩
      have hxc : x = ':' := by simpa using hxe
      subst hxc
      exact (mem_pyStrip_iff hc1 s.data).mp hx
    · intro h
      exact ⟨':', (mem_pyStrip_iff hc1 s.data).mpr h, by simp⟩
  have hmem2 : ((pyStrip s.data).any (· = '：') = true) ↔ '：' ∈ s.data := by
    rw [List.any_eq_true]
    constructor
    · rintro ⟨x, hx, hxe⟩
      have hxc : x = '：' := by simpa using hxe
      subst hxc
      exact (mem_pyStrip_iff hc2 s.data).mp hx
    · intro h
      exact ⟨'：', (mem_pyStrip_iff hc2 s.data).mpr h, by simp⟩
  have hJ : ((startsJsonLike (pyStrip s.data) && (jsonLoadsL (pyStrip s.data)).isSome) = true) ↔
      (((∃ t, pyStrip s.data = '\x7b' :: t) ∨ (∃ t, pyStrip s.data = '[' :: t)) ∧
        (∃ j, jsonLoadsL (pyStrip s.data) = some j)) := by
    rw [Bool.and_eq_true, startsJsonLike_iff, Option.isSome_iff_exists]
  have hT : (((pyStrip s.data).any (· = ':') || (pyStrip s.data).any (· = '：')) = true) ↔
      (':' ∈ s.data ∨ '：' ∈ s.data) := by
    rw [Bool.or_eq_true, hmem1, hmem2]
  by_cases h1 : (startsJsonLike (pyStrip s.data) && (jsonLoadsL (pyStrip s.data)).isSome) = true
  · have hval : detect_format s = "json" := by
      simp only [detect_format]
      rw [if_pos h1]
    refine ⟨?_, ?_, ?_, ?_⟩
    · simp only [hval, true_iff]
      exact hJ.mp h1
    · simp only [hval]
      constructor
      · intro h
        exact absurd h (by decide)
      · rintro ⟨hn, _⟩
        exact absurd (hJ.mp h1) hn
    · simp only [hval]
      constructor
      · intro h
        exact absurd h (by decide)
      · rintro ⟨hn, _⟩
        exact absurd (hJ.mp h1) hn
    · intro hall
      have hnil : pyStrip s.data = [] := pyStrip_eq_nil_of_all_space hall
      rw [hnil] at h1
      exact absurd h1 (by decide)
  · by_cases h2 : (((pyStrip s.data).any (· = ':') || (pyStrip s.data).any (· = '：')) = true)
    · have hval : detect_format s = "text" := by
        simp only [detect_format]
        rw [if_neg h1, if_pos h2]
      refine ⟨?_, ?_, ?_, ?_⟩
      · simp only [hval]
        constructor
        · intro h
          exact absurd h (by decide)
        · intro hcond
          exact absurd (hJ.mpr hcond) h1
      · simp only [hval, true_iff]
        exact ⟨fun hcond => h1 (hJ.mpr hcond), hT.mp h2⟩
      · simp only [hval]
        constructor
        · intro h
          exact absurd h (by decide)
        · rintro ⟨_, hn⟩
          exact absurd (hT.mp h2) hn
      · intro hall
        have hnil : pyStrip s.data = [] := pyStrip_eq_nil_of_all_space hall
        rw [hnil] at h2
        exact absurd h2 (by decide)
    · have hval : detect_format s = "unknown" := by
        simp only [detect_format]
        rw [if_neg h1, if_neg h2]
      refine ⟨?_, ?_, ?_, ?_⟩
      · simp only [hval]
        constructor
        · intro h
          exact absurd h (by decide)
        · intro hcond
          exact absurd (hJ.mpr hcond) h1
      · simp only [hval]
        constructor
        · intro h
          exact absurd h (by decide)
        · rintro ⟨_, hcond⟩
          exact absurd (hT.mpr hcond) h2
      · simp only [hval, true_iff]
        exact ⟨fun hcond => h1 (hJ.mpr hcond), fun hcond => h2 (hT.mpr hcond)⟩
      · intro _
        exact hval

/-- Witness for C9: the whitespace-only input `"  "` is detected as
`"unknown"`, and the scenario input of C1 is detected as `"text"`. -/
theorem claim_c9_witness :
    detect_format "  " = "unknown" ∧
    detect_format "客户：您好" = "text" := by
  constructor
  · exact (claim_c9_detect_format "  ").2.2.2 (by with_unfolding_all decide)
  · refine ((claim_c9_detect_format "客户：您好").2.1).mpr ⟨?_, ?_⟩
    · rintro ⟨hstarts, -⟩
      have hs : pyStrip "客户：您好".data = ['客', '户', '：', '您', '好'] := by
        with_unfolding_all rfl
      rcases hstarts with ⟨t, ht⟩ | ⟨t, ht⟩ <;> rw [hs] at ht <;>
        (injection ht with h1 h2; exact absurd h1 (by decide))
    · refine Or.inr ?_
      have hd : "客户：您好".data = ['客', '户', '：', '您', '好'] := by
        with_unfolding_all rfl
      rw [hd]
      decide

/-- Claim C10, counterexample: the LLM response `"{\"score\": 0}"` makes
`check_compliance` return a 0 score with no exception and no error key —
a 0 score is not exclusive to the exception path, because the score
parsed from the response's JSON is passed through unchanged. -/
theorem claim_c10_counterexample :
    check_compliance (Except.ok "\x7b\"score\": 0\x7d") =
      { score := Json.num 0, issues := [],
        details := [("score", Json.num 0)], error := none } := by
  with_unfolding_all rfl

/-- Claim C10, amended (corrected): with no exception, a response whose
extractable JSON object carries no `score` key yields `score = 100` and
no error key; an exception yields `score = 0` together with the error
key; and a parsed `score` value — including 0 — is passed through
unchanged, so a 0 score can also arise without an exception. -/
theorem claim_c10_amended_compliance (response : String) (e : String) :
    (lookupJ "score" (parse_json_response response) = none →
      (check_compliance (Except.ok response)).score = Json.num 100 ∧
      (check_compliance (Except.ok response)).error = none) ∧
    check_compliance (Except.error e) =
      { score := Json.num 0, issues := [], details := [], error := some e } ∧
    (∀ v, lookupJ "score" (parse_json_response response) = some v →
      (check_compliance (Except.ok response)).score = v) := by
  refine ⟨?_, rfl, ?_⟩
  · intro h
    constructor
    · simp [check_compliance, h]
    · rfl
  · intro v h
    simp [check_compliance, h]

/-- Witness for the amended C10: a plain-text response with no JSON at
all scores 100 with no error. -/
theorem claim_c10_witness :
    (check_compliance (Except.ok "plain text")).score = Json.num 100 := by
  exact ((claim_c10_amended_compliance "plain text" "x").1 (by with_unfolding_all rfl)).1

/-- Claim C7 (confirmed): for a non-empty report list with scores in
[0,100], the summary's average is the arithmetic mean of the overall
scores; the distribution counts each report into exactly one of the four
buckets [90,100], [80,90), [60,80), [0,60) (the four counts sum to the
number of reports); `top_issues` is the first five entries of the stable
count-descending ordering of the per-`issue_type` counts, where the count
table maps each type to its number of occurrences across all reports'
issues with keys in first-encounter order, and the ordering is a
permutation of that table, sorted by count descending, with ties kept in
table order; the empty list yields the zeroed summary report. -/
theorem claim_c7_aggregate (results : List InspectionReport)
    (hne : results ≠ [])
    (hrange : ∀ r ∈ results, 0 ≤ r.overall_score ∧ r.overall_score ≤ 100) :
    (generate_summary_report results).total_sessions = results.length ∧
    (generate_summary_report results).avg_score =
      (results.map (·.overall_score)).sum / (results.length : ℚ) ∧
    (generate_summary_report results).score_distribution =
      [("优秀(90-100)", results.countP
          (fun r => decide (90 ≤ r.overall_score ∧ r.overall_score ≤ 100))),
       ("良好(80-89)", results.countP
          (fun r => decide (80 ≤ r.overall_score ∧ r.overall_score < 90))),
       ("合格(60-79)", results.countP
          (fun r => decide (60 ≤ r.overall_score ∧ r.overall_score < 80))),
       ("不合格(<60)", results.countP
          (fun r => decide (0 ≤ r.overall_score ∧ r.overall_score < 60)))] ∧
    results.countP (fun r => decide (90 ≤ r.overall_score ∧ r.overall_score ≤ 100)) +
      results.countP (fun r => decide (80 ≤ r.overall_score ∧ r.overall_score < 90)) +
      results.countP (fun r => decide (60 ≤ r.overall_score ∧ r.overall_score < 80)) +
      results.countP (fun r => decide (0 ≤ r.overall_score ∧ r.overall_score < 60)) =
      results.length ∧
    (generate_summary_report results).top_issues =
      (stableSortDesc (issueStats results)).take 5 ∧
    (∀ t : String, (List.lookup t (issueStats results)).getD 0 =
      ((results.map (·.issues)).flatten.map (·.issue_type)).count t) ∧
    (issueStats results).map Prod.fst =
      dedupFirstS ((results.map (·.issues)).flatten.map (·.issue_type)) ∧
    List.Perm (stableSortDesc (issueStats results)) (issueStats results) ∧
    (stableSortDesc (issueStats results)).Pairwise (fun a b => b.2 ≤ a.2) ∧
    (∀ c : Nat, (stableSortDesc (issueStats results)).filter (fun y => y.2 = c) =
      (issueStats results).filter (fun y => y.2 = c)) ∧
    generate_summary_report [] = emptySummaryReport := by
  have hne' : results.isEmpty = false := by
    cases results with
    | nil => exact absurd rfl hne
    | cons a t => rfl
  have e1 : results.countP (fun r => decide (90 ≤ r.overall_score)) =
      results.countP (fun r => decide (90 ≤ r.overall_score ∧ r.overall_score ≤ 100)) := by
    apply List.countP_congr
    intro r hr
    have h100 := (hrange r hr).2
    simp only [decide_eq_true_eq]
    exact ⟨fun h => ⟨h, h100⟩, fun h => h.1⟩
  have e2 : results.countP (fun r => !(decide (90 ≤ r.overall_score)) &&
        decide (80 ≤ r.overall_score)) =
      results.countP (fun r => decide (80 ≤ r.overall_score ∧ r.overall_score < 90)) := by
    apply List.countP_congr
    intro r hr
    simp only [Bool.and_eq_true, Bool.not_eq_true', decide_eq_false_iff_not,
      decide_eq_true_eq, not_le]
    tauto
  have e3 : results.countP (fun r => !(decide (90 ≤ r.overall_score)) &&
        !(decide (80 ≤ r.overall_score)) && decide (60 ≤ r.overall_score)) =
      results.countP (fun r => decide (60 ≤ r.overall_score ∧ r.overall_score < 80)) := by
    apply List.countP_congr
    intro r hr
    simp only [Bool.and_eq_true, Bool.not_eq_true', decide_eq_false_iff_not,
      decide_eq_true_eq, not_le]
    constructor
    · rintro ⟨⟨h90, h80⟩, h60⟩
      exact ⟨h60, h80⟩
    · rintro ⟨h60, h80⟩
      exact ⟨⟨lt_trans h80 (by norm_num), h80⟩, h60⟩
  have e4 : results.countP (fun r => !(decide (90 ≤ r.overall_score)) &&
        !(decide (80 ≤ r.overall_score)) && !(decide (60 ≤ r.overall_score))) =
      results.countP (fun r => decide (0 ≤ r.overall_score ∧ r.overall_score < 60)) := by
    apply List.countP_congr
    intro r hr
    have h0 := (hrange r hr).1
    simp only [Bool.and_eq_true, Bool.not_eq_true', decide_eq_false_iff_not,
      decide_eq_true_eq, not_le]
    constructor
    · rintro ⟨⟨h90, h80⟩, h60⟩
      exact ⟨h0, h60⟩
    · rintro ⟨h0', h60⟩
      exact ⟨⟨lt_trans h60 (by norm_num), lt_trans h60 (by norm_num)⟩, h60⟩
  have hdist : scoreDistribution results =
      [("优秀(90-100)", results.countP
          (fun r => decide (90 ≤ r.overall_score ∧ r.overall_score ≤ 100))),
       ("良好(80-89)", results.countP
          (fun r => decide (80 ≤ r.overall_score ∧ r.overall_score < 90))),
       ("合格(60-79)", results.countP
          (fun r => decide (60 ≤ r.overall_score ∧ r.overall_score < 80))),
       ("不合格(<60)", results.countP
          (fun r => decide (0 ≤ r.overall_score ∧ r.overall_score < 60)))] := by
    have hfold := foldl_distStep results 0 0 0 0
    simp only [Nat.zero_add] at hfold
    simp only [scoreDistribution, hfold]
    rw [e1, e2, e3, e4]
  refine ⟨?_, ?_, ?_, ?_, ?_, ?_, ?_, ?_, ?_, ?_, ?_⟩
  · simp [generate_summary_report, hne']
  · simp [generate_summary_report, hne']
  · simp only [generate_summary_report, hne', Bool.false_eq_true, if_false]
    exact hdist
  · rw [← e1, ← e2, ← e3, ← e4]
    exact countP_chain_sum results
  · simp [generate_summary_report, hne']
  · intro t
    have h := lookup_foldl_addCount
      ((results.map (·.issues)).flatten.map (·.issue_type)) [] t
    simpa [issueStats] using h
  · have h := keys_foldl_addCount
      ((results.map (·.issues)).flatten.map (·.issue_type)) []
    simpa [issueStats, dedupFirstS] using h
  · exact perm_stableSortDesc (issueStats results)
  · exact pairwise_stableSortDesc (issueStats results)
  · intro c
    exact filter_stableSortDesc c (issueStats results)
  · rfl

/-- Witness for C7: aggregating overall scores [95, 82, 65, 40] puts one
report in each bucket and averages to 70.5. -/
theorem claim_c7_witness :
    (generate_summary_report
      [{ session_id := "a", overall_score := 95 },
       { session_id := "b", overall_score := 82 },
       { session_id := "c", overall_score := 65 },
       { session_id := "d", overall_score := 40 }]).avg_score = 141 / 2 ∧
    (generate_summary_report
      [{ session_id := "a", overall_score := 95 },
       { session_id := "b", overall_score := 82 },
       { session_id := "c", overall_score := 65 },
       { session_id := "d", overall_score := 40 }]).score_distribution =
      [("优秀(90-100)", 1), ("良好(80-89)", 1), ("合格(60-79)", 1), ("不合格(<60)", 1)] := by
  have h := claim_c7_aggregate
    [{ session_id := "a", overall_score := 95 },
     { session_id := "b", overall_score := 82 },
     { session_id := "c", overall_score := 65 },
     { session_id := "d", overall_score := 40 }]
    (by simp) (by with_unfolding_all decide)
  constructor
  · rw [h.2.1]
    with_unfolding_all rfl
  · rw [h.2.2.1]
    with_unfolding_all rfl
